import Mathlib

/-!
A shallow embedding of `coax/_core/value_v.py`: the state value function
wrapper `V`.  The wrapper validates a user supplied forward-pass function
once at construction (signature check, trial call, output check) and
evaluates it on single observations with preprocessing and an inverse
value transform.

External collaborators of `V` (the `BaseFunc` call convention, the
`ValueTransform` pair, `ProbaDist.preprocess_variate`, `safe_sample`,
`gym.Space`, and the numpy random stream) are repository or library code
that is not part of `value_v.py`; they are modelled from the spec, as
documented on each definition.
-/

namespace Coax

/-- Numeric dtypes of the array model (`jnp` dtypes). -/
inductive DType where
  | float32
  | float64
  | int32
  | int64
  | boolDt
  deriving DecidableEq

/-- `jnp.issubdtype(dtype, jnp.floating)`. -/
def DType.isFloating : DType → Bool
  | DType.float32 => true
  | DType.float64 => true
  | _ => false

/-- Printable dtype name, as it appears in error messages. -/
def DType.name : DType → String
  | DType.float32 => "float32"
  | DType.float64 => "float64"
  | DType.int32 => "int32"
  | DType.int64 => "int64"
  | DType.boolDt => "bool"

/-- Model of a `jnp.ndarray`: a shape, a dtype, and row-major data.
Numeric values are modelled as rationals. -/
structure NDArray where
  shape : List Nat
  dtype : DType
  data : List Rat
  deriving DecidableEq

/-- A Python value as seen by the output check: either a `jnp.ndarray`
or some other object, carrying only its class name. -/
inductive PyVal where
  | ndarray (a : NDArray)
  | other (className : String)
  deriving DecidableEq

/-- Python tuple notation for a shape, e.g. `(1,)` or `(2, 3)`. -/
def shapeRepr (l : List Nat) : String :=
  "(" ++ String.intercalate ", " (l.map toString) ++
    (if l.length = 1 then ",)" else ")")

/-- `a[0]`: the subarray at index 0 along the leading axis.  Fails on a
rank-0 array or an empty leading axis. -/
def NDArray.index0 (a : NDArray) : Option NDArray :=
  match a.shape with
  | [] => none
  | n :: rest => if n = 0 then none else some ⟨rest, a.dtype, a.data.take rest.prod⟩

/-- `jnp.concatenate(xs, axis=0)`: requires at least one array, every
array of rank at least 1, and equal trailing dimensions.  The result
dtype is taken from the first array. -/
def concat0 (xs : List NDArray) : Except String NDArray :=
  match xs with
  | [] => Except.error "need at least one array to concatenate"
  | x :: rest =>
      match x.shape with
      | [] => Except.error "zero-dimensional arrays cannot be concatenated"
      | n :: tail =>
          if rest.all (fun y => y.shape.tail == tail && !y.shape.isEmpty) then
            Except.ok
              { shape := (n + (rest.map (fun y => y.shape.headD 0)).sum) :: tail,
                dtype := x.dtype,
                data := x.data ++ rest.foldr (fun y acc => y.data ++ acc) [] }
          else
            Except.error "input array dimensions away from the concatenation axis must match"

/-- Modelled from the spec: the `ValueTransform` abstraction of
`coax.value_transforms` (not under `src/`) is "an ordered pair
(forward, inverse) of numeric functions"; both act on the raw output
array. -/
structure ValueTransform where
  transform_func : NDArray → NDArray
  inverse_func : NDArray → NDArray

/-- Modelled from the spec: the data behind a recognized `gym.Space`
(not under `src/`): a "safe sample" operation yielding one valid
observation from a seeded random draw, together with the default
variate-preprocessing behavior (a per-observation feature encoding of a
fixed dimension). -/
structure SpaceData (Obs : Type) where
  sample : Nat → Nat → Obs
  encode : Obs → List Rat
  obsDim : Nat

/-- A Python object sitting in the `observation_space` slot: either a
recognized `gym.Space` or some other object, carrying its type name. -/
inductive PySpace (Obs : Type) where
  | space (d : SpaceData Obs)
  | other (typeName : String)

/-- Whether the object is derived from `gym.Space`. -/
def PySpace.isSpace {Obs : Type} : PySpace Obs → Bool
  | PySpace.space _ => true
  | PySpace.other _ => false

/-- A gym-style environment, restricted to what `value_v.py` reads. -/
structure Env (Obs : Type) where
  observation_space : PySpace Obs

/-- Modelled from the spec: `onp.random.RandomState(seed)`, a stateful
seeded generator; each draw advances a counter. -/
structure RandomState where
  seed : Nat
  counter : Nat

/-- `onp.random.RandomState(random_seed)` with `None` defaulting. -/
def RandomState.make (seed? : Option Nat) : RandomState :=
  ⟨seed?.getD 0, 0⟩

/-- A fixed pseudo-random value determined by seed and counter; stands
in for one draw of `randn` (only shapes of such draws ever matter). -/
def pseudoRandn (seed c : Nat) : Rat :=
  (((seed * 2654435761 + c * 40503 + 12345) % 1000003 : Nat) : Rat)

/-- `rnd.randn(n)` data: `n` seeded pseudo-random values. -/
def randnData (r : RandomState) (n : Nat) : List Rat :=
  (List.range n).map fun i => pseudoRandn r.seed (r.counter + i)

/-- Modelled from the spec: `coax.utils.safe_sample(space, rnd)` (not
under `src/`) yields one valid observation from the seeded generator
and advances the generator state. -/
def safe_sample {Obs : Type} (d : SpaceData Obs) (r : RandomState) : Obs × RandomState :=
  (d.sample r.seed r.counter, ⟨r.seed, r.counter + 1⟩)

/-- `[safe_sample(space, rnd) for _ in range(n)]`: `n` successive draws,
threading the generator state. -/
def drawSamples {Obs : Type} (d : SpaceData Obs) (r : RandomState) :
    Nat → List Obs × RandomState
  | 0 => ([], r)
  | n + 1 =>
      let p := safe_sample d r
      let q := drawSamples d p.2 n
      (p.1 :: q.1, q.2)

/-- Modelled from the spec: `ProbaDist(space).preprocess_variate` (not
under `src/`) turns a single observation into a batch of size 1 that is
compatible with the space, here a float array of shape
`[1, obsDim]`. -/
def preprocess_variate {Obs : Type} (d : SpaceData Obs) (s : Obs) : NDArray :=
  ⟨[1, d.obsDim], DType.float32, d.encode s⟩

/-- The preprocessor derived from an observation-space slot when none is
supplied (`ProbaDist(env.observation_space).preprocess_variate`); its
behavior on a non-Space object is not reached by validated code. -/
def defaultPreprocessor {Obs : Type} : PySpace Obs → Obs → NDArray
  | PySpace.space d, s => preprocess_variate d s
  | PySpace.other _, _ => ⟨[], DType.float32, []⟩

/-- `ArgsType2(S=..., is_training=...)`: the argument record passed to
the wrapped function. -/
structure ArgsType2 where
  S : NDArray
  is_training : Bool
  deriving DecidableEq

/-- `Inputs(args=..., static_argnums=...)`: example inputs plus the
static-argument declaration. -/
structure Inputs where
  args : ArgsType2
  static_argnums : List Nat
  deriving DecidableEq

/-- `ExampleData(inputs=..., output=...)`. -/
structure ExampleData where
  inputs : Inputs
  output : NDArray
  deriving DecidableEq

/-- Failures of `V.example_data`: the `gym.Space` isinstance check, or a
failure of the concatenation over the drawn batch. -/
inductive ExampleError where
  | badSpace (typeName : String)
  | concatError (msg : String)
  deriving DecidableEq

/-- The message attached to an `example_data` failure. -/
def ExampleError.message : ExampleError → String
  | ExampleError.badSpace t =>
      "env.observation_space must be derived from gym.Space, got: " ++ t
  | ExampleError.concatError m => m

/-- The message of the signature check failure:
`func has bad signature; expected: func(S, is_training), got: func(...)`
with the actual parameter list joined by commas. -/
def signatureErrorMsg (ps : List String) : String :=
  "func has bad signature; expected: func(S, is_training), got: func(" ++
    String.intercalate ", " ps ++ ")"

/-- The parameter-tuple test of `V._check_signature`:
`tuple(signature(func).parameters) != ('S', 'is_training')` raises a
`TypeError` reporting the actual parameter list. -/
def checkSignatureParams (ps : List String) : Except String Unit :=
  if ps = ["S", "is_training"] then Except.ok () else Except.error (signatureErrorMsg ps)

/-- Failures of `V._check_output`, tagged by the violated property and
carrying the actual (and where needed expected) value. -/
inductive OutputError where
  | badType (got : String)
  | badDtype (got : DType)
  | badShape (expected got : List Nat)
  deriving DecidableEq

/-- The `TypeError` message of each `V._check_output` failure. -/
def OutputError.message : OutputError → String
  | OutputError.badType g =>
      "func has bad return type; expected jnp.ndarray, got " ++ g
  | OutputError.badDtype d =>
      "func has bad return dtype; expected a subdtype of jnp.floating, got dtype=" ++ d.name
  | OutputError.badShape e g =>
      "func has bad return shape, expected: " ++ shapeRepr e ++ ", got: " ++ shapeRepr g

/-- `V._check_output(actual, expected)`: the trial output must be a
`jnp.ndarray`, of floating dtype, with the expected shape; the checks
run in that order and the first violated property is reported. -/
def check_output (actual : PyVal) (expected : NDArray) : Except OutputError Unit :=
  match actual with
  | PyVal.other c => Except.error (OutputError.badType c)
  | PyVal.ndarray a =>
      if !a.dtype.isFloating then Except.error (OutputError.badDtype a.dtype)
      else if a.shape ≠ expected.shape then
        Except.error (OutputError.badShape expected.shape a.shape)
      else Except.ok ()

/-- `V.example_data(env, observation_preprocessor, batch_size,
random_seed)`: checks that the observation space is a `gym.Space`,
defaults the preprocessor, draws `batch_size` safe samples with a
seeded generator, preprocesses each, concatenates along axis 0, and
pairs the result with `is_training=True`, `static_argnums=(1,)` and a
seeded `randn(batch_size)` output placeholder. -/
def example_data {Obs : Type} (env : Env Obs) (preproc? : Option (Obs → NDArray))
    (batch_size : Nat) (seed? : Option Nat) : Except ExampleError ExampleData :=
  match env.observation_space with
  | PySpace.other t => Except.error (ExampleError.badSpace t)
  | PySpace.space d =>
      let preproc := match preproc? with
        | some p => p
        | none => preprocess_variate d
      let drawn := drawSamples d (RandomState.make seed?) batch_size
      match concat0 (drawn.1.map preproc) with
      | Except.error m => Except.error (ExampleError.concatError m)
      | Except.ok S =>
          Except.ok
            { inputs := { args := { S := S, is_training := true }, static_argnums := [1] },
              output := { shape := [batch_size], dtype := DType.float64,
                          data := randnData drawn.2 batch_size } }

/-- A user supplied forward-pass callable: its declared parameter names
(in order), and — modelled from the spec — the transformed
`function(params, state, rng, S, is_training)` call convention that the
`BaseFunc` base class (not under `src/`) derives from it, returning
`(output, new_state)`. -/
structure PyFunc (Params FState : Type) where
  paramNames : List String
  run : Params → FState → Nat → NDArray → Bool → PyVal × FState

/-- Modelled from the spec: the random key held by the `BaseFunc` base
class (not under `src/`), derived from the random seed. -/
def rngOf (seed? : Option Nat) : Nat := seed?.getD 0

/-- The constructed wrapper: configuration captured by `V.__init__`
plus the parameter/function-state/random-key storage and the call
convention provided by the `BaseFunc` base class (modelled from the
spec, not under `src/`). -/
structure V (Params FState Obs : Type) where
  observation_preprocessor : Obs → NDArray
  value_transform : ValueTransform
  params : Params
  function_state : FState
  rng : Nat
  function : Params → FState → Nat → NDArray → Bool → PyVal × FState

/-- The `value_transform` argument of `V.__init__`: either a
`ValueTransform` object or a pair of functions. -/
inductive VTInput where
  | vt (t : ValueTransform)
  | pair (f g : NDArray → NDArray)

/-- `value_transform` defaulting and coercion in `V.__init__`: absent
gives the identity pair, a non-`ValueTransform` 2-tuple is coerced via
`ValueTransform(*value_transform)`. -/
def resolveValueTransform : Option VTInput → ValueTransform
  | none => ⟨fun x => x, fun x => x⟩
  | some (VTInput.vt t) => t
  | some (VTInput.pair f g) => ⟨f, g⟩

/-- Construction failures of `V`: the signature check, the example-data
synthesis inside `_check_signature`, or the trial-output check. -/
inductive InitError where
  | sigError (msg : String)
  | exampleError (e : ExampleError)
  | outputError (e : OutputError)

/-- `V.__init__(func, env, observation_preprocessor, value_transform,
random_seed)`: fills defaults, then (via `BaseFunc.__init__`, modelled
from the spec) checks the declared signature, synthesizes one example
batch of size 1 with the configured preprocessor and seed, performs a
trial forward call, and checks its output; `params` and `fstate` stand
for the externally initialized parameter and function-state storage. -/
def V.init {Params FState Obs : Type} (func : PyFunc Params FState) (env : Env Obs)
    (preproc? : Option (Obs → NDArray)) (vt? : Option VTInput) (seed? : Option Nat)
    (params : Params) (fstate : FState) : Except InitError (V Params FState Obs) :=
  let preproc := match preproc? with
    | some p => p
    | none => defaultPreprocessor env.observation_space
  let vt := resolveValueTransform vt?
  match checkSignatureParams func.paramNames with
  | Except.error m => Except.error (InitError.sigError m)
  | Except.ok _ =>
      match example_data env (some preproc) 1 seed? with
      | Except.error e => Except.error (InitError.exampleError e)
      | Except.ok ex =>
          let out := (func.run params fstate (rngOf seed?) ex.inputs.args.S
            ex.inputs.args.is_training).1
          match check_output out ex.output with
          | Except.error e => Except.error (InitError.outputError e)
          | Except.ok _ =>
              Except.ok
                { observation_preprocessor := preproc, value_transform := vt,
                  params := params, function_state := fstate,
                  rng := rngOf seed?, function := func.run }

/-- `V.__call__(s)`, kept together with the wrapper state after the
call: preprocess `s`, call the wrapped function with
`is_training=False`, discard the returned new function state, apply the
inverse value transform, and take index 0.  The method reassigns no
attribute of `self`, so the wrapper after the call is the receiver
itself. -/
def V.callFull {Params FState Obs : Type} (v : V Params FState Obs) (s : Obs) :
    Option NDArray × V Params FState Obs :=
  let S := v.observation_preprocessor s
  let out := (v.function v.params v.function_state v.rng S false).1
  let result := match out with
    | PyVal.ndarray a => (v.value_transform.inverse_func a).index0
    | PyVal.other _ => none
  (result, v)

/-- The value returned by `V.__call__(s)` (`onp.asarray(V[0])`, a
rank-0 array when the raw output has shape `(1,)`); `none` models a
crash of the untyped tail of the method. -/
def V.eval {Params FState Obs : Type} (v : V Params FState Obs) (s : Obs) :
    Option NDArray :=
  (v.callFull s).1

/-- Observer for `example_data` results: the leading dimension of the
input batch and the shape of the expected output, when the call
succeeds. -/
def exampleDataDims : Except ExampleError ExampleData → Option (Nat × List Nat)
  | Except.ok ex => some (ex.inputs.args.S.shape.headD 0, ex.output.shape)
  | Except.error _ => none

/-- A concrete recognized observation space over `Nat` observations:
draw `i` yields observation `i`, encoded as a one-element feature
row. -/
def d0 : SpaceData Nat :=
  { sample := fun _ i => i, encode := fun s => [(s : Rat)], obsDim := 1 }

/-- A concrete environment with the recognized space `d0`. -/
def env0 : Env Nat := ⟨PySpace.space d0⟩

/-- A concrete well-formed forward-pass function: correct signature,
returning a float array of shape `(1,)`. -/
def f0 : PyFunc Unit Unit :=
  { paramNames := ["S", "is_training"],
    run := fun _ _ _ _ _ => (PyVal.ndarray ⟨[1], DType.float32, [0]⟩, ()) }

/-- The wrapper produced by constructing `f0` over `env0` with all
optional arguments absent. -/
def w0 : V Unit Unit Nat :=
  { observation_preprocessor := defaultPreprocessor env0.observation_space,
    value_transform := ⟨fun x => x, fun x => x⟩,
    params := (), function_state := (), rng := 0, function := f0.run }

/-- A concrete wrapper with identity transform whose function returns a
fixed one-element float batch. -/
def v1 : V Unit Unit Nat :=
  { observation_preprocessor := fun s => ⟨[1, 1], DType.float32, [(s : Rat)]⟩,
    value_transform := ⟨fun x => x, fun x => x⟩,
    params := (), function_state := (), rng := 0,
    function := fun _ _ _ _ _ =>
      (PyVal.ndarray ⟨[1], DType.float32, [4]⟩, ()) }

/-- A second record with field-for-field the same configuration as
`v1`. -/
def v1b : V Unit Unit Nat :=
  { observation_preprocessor := fun s => ⟨[1, 1], DType.float32, [(s : Rat)]⟩,
    value_transform := ⟨fun x => x, fun x => x⟩,
    params := (), function_state := (), rng := 0,
    function := fun _ _ _ _ _ =>
      (PyVal.ndarray ⟨[1], DType.float32, [4]⟩, ()) }

/-- A concrete wrapper with a counting function state. -/
def v2 : V Unit Nat Nat :=
  { observation_preprocessor := fun s => ⟨[1], DType.float32, [(s : Rat)]⟩,
    value_transform := ⟨fun x => x, fun x => x⟩,
    params := (), function_state := 0, rng := 0,
    function := fun _ st _ S _ => (PyVal.ndarray S, st + 1) }

/-- Like the function of `v2` but advancing the function state
differently, with identical outputs. -/
def g2 : Unit → Nat → Nat → NDArray → Bool → PyVal × Nat :=
  fun _ st _ S _ => (PyVal.ndarray S, st + 7)

theorem drawSamples_length {Obs : Type} (d : SpaceData Obs) :
    ∀ (n : Nat) (r : RandomState), (drawSamples d r n).1.length = n := by
  intro n
  induction n with
  | zero => intro r; rfl
  | succ k ih => intro r; simpa [drawSamples] using ih _

theorem concat0_ok_uniform (x : NDArray) (xs : List NDArray) (t : List Nat)
    (h : ∀ y ∈ x :: xs, y.shape = 1 :: t) :
    concat0 (x :: xs) = Except.ok
      { shape := (xs.length + 1) :: t, dtype := x.dtype,
        data := x.data ++ xs.foldr (fun y acc => y.data ++ acc) [] } := by
  obtain ⟨sh, dt, da⟩ := x
  have hx : sh = 1 :: t := h ⟨sh, dt, da⟩ (List.mem_cons_self _ xs)
  subst hx
  have hcond : (xs.all fun y => y.shape.tail == t && !y.shape.isEmpty) = true := by
    rw [List.all_eq_true]
    intro y hy
    have hy2 : y.shape = 1 :: t := h y (List.mem_cons_of_mem _ hy)
    simp [hy2]
  have hmap : xs.map (fun y => y.shape.headD 0) = List.replicate xs.length 1 := by
    rw [List.map_congr_left (g := fun _ => 1)
      (fun y hy => by rw [h y (List.mem_cons_of_mem _ hy)]; rfl)]
    exact List.map_const' xs 1
  dsimp only [concat0]
  rw [if_pos hcond, hmap, List.sum_replicate]
  simp [Nat.add_comm]

theorem concat0_preproc {Obs : Type} (d : SpaceData Obs) (a : Obs) (l : List Obs) :
    concat0 ((a :: l).map (preprocess_variate d)) = Except.ok
      { shape := (l.length + 1) :: [d.obsDim], dtype := DType.float32,
        data := (a :: l).foldr (fun s acc => d.encode s ++ acc) [] } := by
  have hfold : (l.map (preprocess_variate d)).foldr (fun y acc => y.data ++ acc) [] =
      l.foldr (fun s acc => d.encode s ++ acc) [] := by
    induction l with
    | nil => rfl
    | cons b bs ih => simp only [List.map_cons, List.foldr_cons, ih]; rfl
  have h := concat0_ok_uniform (preprocess_variate d a) (l.map (preprocess_variate d))
    [d.obsDim] (by
      intro y hy
      rcases List.mem_cons.mp hy with h1 | h1
      · rw [h1]; rfl
      · rcases List.mem_map.mp h1 with ⟨z, _, hz⟩
        rw [← hz]; rfl)
  rw [List.map_cons, h]
  rw [hfold]
  simp [preprocess_variate]

theorem example_data_default_eq {Obs : Type} (env : Env Obs) (d : SpaceData Obs)
    (N : Nat) (seed? : Option Nat) (henv : env.observation_space = PySpace.space d)
    (hN : N ≠ 0) :
    example_data env none N seed? = Except.ok
      { inputs := { args := {
            S := { shape := N :: [d.obsDim], dtype := DType.float32,
                   data := (drawSamples d (RandomState.make seed?) N).1.foldr
                     (fun s acc => d.encode s ++ acc) [] },
            is_training := true }, static_argnums := [1] },
        output := { shape := [N], dtype := DType.float64,
                    data := randnData (drawSamples d (RandomState.make seed?) N).2 N } } := by
  have hlen : (drawSamples d (RandomState.make seed?) N).1.length = N :=
    drawSamples_length d N _
  rcases hL : (drawSamples d (RandomState.make seed?) N).1 with _ | ⟨a, l⟩
  · rw [hL] at hlen; exact absurd hlen.symm hN
  · have hc := concat0_preproc d a l
    have hlen2 : l.length + 1 = N := by rw [hL] at hlen; simpa using hlen
    simp only [example_data, henv, hL, hc, hlen2]

/-- Claim C2: the signature check passes exactly when the declared
parameters are `(S, is_training)` in that order, and otherwise fails
with the signature error reporting the actual parameter list. -/
theorem signature_check_exact (ps : List String) :
    (checkSignatureParams ps = Except.ok () ↔ ps = ["S", "is_training"]) ∧
    (ps ≠ ["S", "is_training"] →
      checkSignatureParams ps = Except.error (signatureErrorMsg ps)) := by
  unfold checkSignatureParams
  by_cases h : ps = ["S", "is_training"] <;> simp [h]

/-- Claim C2 witness: a one-parameter function is rejected with a
message showing its parameter list, and the exact expected signature is
accepted. -/
theorem signature_check_exact_witness :
    checkSignatureParams ["X"] = Except.error
      "func has bad signature; expected: func(S, is_training), got: func(X)" ∧
    checkSignatureParams ["S", "is_training"] = Except.ok () :=
  ⟨(signature_check_exact ["X"]).2 (by decide),
   (signature_check_exact ["S", "is_training"]).1.mpr rfl⟩

/-- Claim C3: the output check succeeds exactly on floating ndarrays of
the expected shape; every failure is tagged with a violated property —
type, dtype, or shape — and carries the actual value of that property
(and the expected shape where relevant), rendered into the error
message. -/
theorem output_check_characterization (actual : PyVal) (expected : NDArray) :
    (check_output actual expected = Except.ok () ↔
      ∃ a, actual = PyVal.ndarray a ∧ a.dtype.isFloating = true ∧
        a.shape = expected.shape) ∧
    (∀ e, check_output actual expected = Except.error e →
      match e with
      | OutputError.badType g => actual = PyVal.other g ∧
          e.message = "func has bad return type; expected jnp.ndarray, got " ++ g
      | OutputError.badDtype dt =>
          (∃ a, actual = PyVal.ndarray a ∧ a.dtype = dt) ∧ dt.isFloating = false ∧
          e.message =
            "func has bad return dtype; expected a subdtype of jnp.floating, got dtype=" ++ dt.name
      | OutputError.badShape exp got => exp = expected.shape ∧ got ≠ expected.shape ∧
          (∃ a, actual = PyVal.ndarray a ∧ a.shape = got ∧ a.dtype.isFloating = true) ∧
          e.message = "func has bad return shape, expected: " ++ shapeRepr exp ++
            ", got: " ++ shapeRepr got) := by
  constructor
  · constructor
    · intro hok
      match actual with
      | PyVal.other c => simp [check_output] at hok
      | PyVal.ndarray a =>
          by_cases h1 : a.dtype.isFloating = true <;> by_cases h2 : a.shape = expected.shape <;>
            simp [check_output, h1, h2] at hok
          exact ⟨a, rfl, h1, h2⟩
    · rintro ⟨a, rfl, h1, h2⟩
      simp [check_output, h1, h2]
  · intro e he
    match actual with
    | PyVal.other c =>
        simp only [check_output] at he
        cases he
        exact ⟨rfl, rfl⟩
    | PyVal.ndarray a =>
        by_cases h1 : a.dtype.isFloating
        · by_cases h2 : a.shape = expected.shape
          · simp [check_output, h1, h2] at he
          · simp only [check_output, h1, Bool.not_true, Bool.false_eq_true, if_false,
              h2, ne_eq, not_false_eq_true, if_true] at he
            cases he
            exact ⟨rfl, h2, ⟨a, rfl, rfl, h1⟩, rfl⟩
        · simp only [check_output, Bool.not_eq_true] at he
          rw [if_pos] at he
          · cases he
            exact ⟨⟨a, rfl, rfl⟩, by simpa using h1, rfl⟩
          · simpa using h1

/-- Claim C3 witness: an integer-dtype output of the right shape is
rejected as a dtype violation, and a well-typed output is accepted. -/
theorem output_check_characterization_witness :
    check_output (PyVal.ndarray ⟨[1], DType.float32, [0]⟩) ⟨[1], DType.float64, []⟩ =
      Except.ok () :=
  (output_check_characterization _ _).1.mpr ⟨_, rfl, rfl, rfl⟩

/-- Claim C6: `example_data` fails with the space-kind type error
exactly when the observation space is not derived from the recognized
space base type, and that error names the actual type found. -/
theorem example_data_space_check {Obs : Type} (env : Env Obs)
    (p? : Option (Obs → NDArray)) (N : Nat) (seed? : Option Nat) :
    ((∃ t, example_data env p? N seed? = Except.error (ExampleError.badSpace t)) ↔
      env.observation_space.isSpace = false) ∧
    (∀ t, example_data env p? N seed? = Except.error (ExampleError.badSpace t) →
      env.observation_space = PySpace.other t ∧
      (ExampleError.badSpace t).message =
        "env.observation_space must be derived from gym.Space, got: " ++ t) := by
  obtain ⟨os⟩ := env
  cases os with
  | space d =>
      constructor
      · simp only [PySpace.isSpace]
        constructor
        · rintro ⟨t, ht⟩
          simp only [example_data] at ht
          rcases hc : concat0 ((drawSamples d (RandomState.make seed?) N).1.map
            (match p? with | some p => p | none => preprocess_variate d)) with m | S <;>
            rw [hc] at ht <;> cases ht
        · intro h; cases h
      · intro t ht
        simp only [example_data] at ht
        rcases hc : concat0 ((drawSamples d (RandomState.make seed?) N).1.map
          (match p? with | some p => p | none => preprocess_variate d)) with m | S <;>
          rw [hc] at ht <;> cases ht
  | other t0 =>
      refine ⟨⟨fun _ => rfl, fun _ => ⟨t0, rfl⟩⟩, ?_⟩
      intro t ht
      simp only [example_data] at ht
      cases ht
      exact ⟨rfl, rfl⟩

/-- Claim C4 counterexample: at `batch_size = 0` the concatenation over
the empty batch fails, so no input batch with leading dimension 0 is
ever returned. -/
theorem example_data_zero_batch_fails :
    example_data env0 none 0 none =
      Except.error (ExampleError.concatError "need at least one array to concatenate") ∧
    exampleDataDims (example_data env0 none 0 none) = none :=
  ⟨rfl, rfl⟩

/-- Claim C4 (amended to batch sizes of at least 1 over a recognized
observation space): `example_data(env, batch_size=N)` returns an input
batch whose leading dimension equals `N` and an expected output of
shape `(N,)`. -/
theorem example_data_batch_dims {Obs : Type} (env : Env Obs) (d : SpaceData Obs)
    (N : Nat) (seed? : Option Nat) (henv : env.observation_space = PySpace.space d)
    (hN : 1 ≤ N) :
    exampleDataDims (example_data env none N seed?) = some (N, [N]) := by
  rw [example_data_default_eq env d N seed? henv (by omega)]
  rfl

/-- Claim C4 witness: a concrete environment and batch size 2. -/
theorem example_data_batch_dims_witness :
    1 ≤ 2 ∧ exampleDataDims (example_data env0 none 2 none) = some (2, [2]) :=
  ⟨by decide, example_data_batch_dims env0 d0 2 none rfl (by decide)⟩

/-- Claim C5: over a recognized space with the default preprocessor,
`example_data` draws its batch through the seeded stateful generator
(`drawSamples` of `safe_sample` draws), preprocesses each sample,
concatenates the results along axis 0 into the input structure, and
pairs that structure with `is_training=True`, the static-argument
declaration `static_argnums=(1,)`, and a seeded random output
placeholder of shape `(batch_size,)`. -/
theorem example_data_construction {Obs : Type} (env : Env Obs) (d : SpaceData Obs)
    (N : Nat) (seed? : Option Nat) (henv : env.observation_space = PySpace.space d)
    (hN : N ≠ 0) :
    concat0 ((drawSamples d (RandomState.make seed?) N).1.map (preprocess_variate d)) =
      Except.ok
        { shape := N :: [d.obsDim], dtype := DType.float32,
          data := (drawSamples d (RandomState.make seed?) N).1.foldr
            (fun s acc => d.encode s ++ acc) [] } ∧
    example_data env none N seed? = Except.ok
      { inputs := { args := {
            S := { shape := N :: [d.obsDim], dtype := DType.float32,
                   data := (drawSamples d (RandomState.make seed?) N).1.foldr
                     (fun s acc => d.encode s ++ acc) [] },
            is_training := true }, static_argnums := [1] },
        output := { shape := [N], dtype := DType.float64,
                    data := randnData (drawSamples d (RandomState.make seed?) N).2 N } } := by
  refine ⟨?_, example_data_default_eq env d N seed? henv hN⟩
  have hlen : (drawSamples d (RandomState.make seed?) N).1.length = N :=
    drawSamples_length d N _
  rcases hL : (drawSamples d (RandomState.make seed?) N).1 with _ | ⟨a, l⟩
  · rw [hL] at hlen; exact absurd hlen.symm hN
  · have hlen2 : l.length + 1 = N := by rw [hL] at hlen; simpa using hlen
    rw [concat0_preproc d a l, hlen2]

/-- Claim C5 witness: seed `None`, batch size 2, over the concrete
space `d0`: the two drawn samples are the successive generator draws,
and the returned structure carries them concatenated. -/
theorem example_data_construction_witness :
    (drawSamples d0 (RandomState.make none) 2).1 = [0, 1] ∧
    example_data env0 none 2 none = Except.ok
      { inputs := { args := {
            S := { shape := [2, 1], dtype := DType.float32,
                   data := (drawSamples d0 (RandomState.make none) 2).1.foldr
                     (fun s acc => d0.encode s ++ acc) [] },
            is_training := true }, static_argnums := [1] },
        output := { shape := [2], dtype := DType.float64,
                    data := randnData (drawSamples d0 (RandomState.make none) 2).2 2 } } :=
  ⟨rfl, (example_data_construction env0 d0 2 none rfl (by decide)).2⟩

/-- Claim C1: evaluation preprocesses the observation into a batch of
size 1, calls the wrapped function with `is_training=False`, applies
the inverse value transform to the raw output, and returns the single
scalar at batch index 0 as a rank-0 numeric value. -/
theorem call_pipeline {P F Obs : Type} (v : V P F Obs) (s : Obs) (raw : NDArray)
    (t : List Nat)
    (hbatch : (v.observation_preprocessor s).shape = 1 :: t)
    (hraw : (v.function v.params v.function_state v.rng
      (v.observation_preprocessor s) false).1 = PyVal.ndarray raw)
    (hshape : (v.value_transform.inverse_func raw).shape = [1]) :
    (v.observation_preprocessor s).shape.headD 0 = 1 ∧
    v.eval s = some ⟨[], (v.value_transform.inverse_func raw).dtype,
      (v.value_transform.inverse_func raw).data.take 1⟩ := by
  refine ⟨by rw [hbatch]; rfl, ?_⟩
  unfold V.eval V.callFull
  simp only [hraw]
  unfold NDArray.index0
  rw [hshape]
  rfl

/-- Claim C1 witness: the concrete wrapper `v1` evaluated at
observation 3 yields the rank-0 value 4. -/
theorem call_pipeline_witness :
    (v1.observation_preprocessor 3).shape.headD 0 = 1 ∧
    v1.eval 3 = some ⟨[], DType.float32, [4]⟩ :=
  call_pipeline v1 3 ⟨[1], DType.float32, [4]⟩ [1] rfl rfl rfl

/-- Claim C7: on a successful construction, an absent preprocessor is
replaced by the one derived from the observation space, an absent value
transform by the identity pair, a transform given as a pair of
functions is coerced into a transform pair, and a transform object is
taken as is. -/
theorem init_defaults {P F Obs : Type} (func : PyFunc P F) (env : Env Obs)
    (preproc? : Option (Obs → NDArray)) (vt? : Option VTInput) (seed? : Option Nat)
    (params : P) (fstate : F) (w : V P F Obs)
    (h : V.init func env preproc? vt? seed? params fstate = Except.ok w) :
    (preproc? = none →
      w.observation_preprocessor = defaultPreprocessor env.observation_space) ∧
    (∀ p, preproc? = some p → w.observation_preprocessor = p) ∧
    (vt? = none → w.value_transform = ⟨fun x => x, fun x => x⟩) ∧
    (∀ f g, vt? = some (VTInput.pair f g) → w.value_transform = ⟨f, g⟩) ∧
    (∀ t, vt? = some (VTInput.vt t) → w.value_transform = t) := by
  simp only [V.init] at h
  split at h
  · cases h
  · split at h
    · cases h
    · split at h
      · cases h
      · cases h
        refine ⟨?_, ?_, ?_, ?_, ?_⟩
        · rintro rfl; rfl
        · rintro p rfl; rfl
        · rintro rfl; rfl
        · rintro f g rfl; rfl
        · rintro t rfl; rfl

/-- Claim C7 witness: constructing `f0` over `env0` with no optional
arguments succeeds and yields the derived preprocessor and the identity
transform pair. -/
theorem init_defaults_witness :
    V.init f0 env0 none none none () () = Except.ok w0 ∧
    w0.observation_preprocessor = defaultPreprocessor env0.observation_space ∧
    w0.value_transform = ValueTransform.mk (fun x => x) (fun x => x) :=
  ⟨rfl, (init_defaults f0 env0 none none none () () w0 rfl).1 rfl,
    (init_defaults f0 env0 none none none () () w0 rfl).2.2.1 rfl⟩

/-- Claim C8: the value returned by evaluation is the inverse value
transform applied to the raw forward output (then taken at batch index
0); with the identity pair this equals the raw forward output at batch
index 0. -/
theorem call_inverse_transform {P F Obs : Type} (v : V P F Obs) (s : Obs)
    (raw : NDArray)
    (hraw : (v.function v.params v.function_state v.rng
      (v.observation_preprocessor s) false).1 = PyVal.ndarray raw) :
    v.eval s = (v.value_transform.inverse_func raw).index0 ∧
    (v.value_transform = ⟨fun x => x, fun x => x⟩ → v.eval s = raw.index0) := by
  constructor
  · unfold V.eval V.callFull
    simp only [hraw]
  · intro hid
    unfold V.eval V.callFull
    simp only [hraw, hid]

/-- Claim C8 witness: the concrete wrapper `v1` has the identity pair,
so its evaluation at 3 is the raw forward output at batch index 0. -/
theorem call_inverse_transform_witness :
    v1.eval 3 = NDArray.index0 ⟨[1], DType.float32, [4]⟩ :=
  (call_inverse_transform v1 3 ⟨[1], DType.float32, [4]⟩ rfl).2 rfl

/-- Claim C9: evaluation is a function of the stored preprocessor,
transform, parameters, function state, random key, and wrapped
function: two wrappers agreeing on all of these produce identical
output on every observation. -/
theorem eval_deterministic {P F Obs : Type} (v w : V P F Obs) (s : Obs)
    (h1 : v.observation_preprocessor = w.observation_preprocessor)
    (h2 : v.value_transform = w.value_transform)
    (h3 : v.params = w.params) (h4 : v.function_state = w.function_state)
    (h5 : v.rng = w.rng) (h6 : v.function = w.function) :
    v.eval s = w.eval s := by
  obtain ⟨a1, a2, a3, a4, a5, a6⟩ := v
  obtain ⟨b1, b2, b3, b4, b5, b6⟩ := w
  cases h1; cases h2; cases h3; cases h4; cases h5; cases h6
  rfl

/-- Claim C9 witness: two field-for-field equal concrete wrappers give
the same value at observation 3. -/
theorem eval_deterministic_witness : v1.eval 3 = v1b.eval 3 :=
  eval_deterministic v1 v1b 3 rfl rfl rfl rfl rfl rfl

/-- Claim C10: evaluation leaves the wrapper unchanged, and its result
is insensitive to the new function state returned by the wrapped
function call: replacing the function by any function with the same
output component gives the same result. -/
theorem call_frame {P F Obs : Type} (v : V P F Obs)
    (g : P → F → Nat → NDArray → Bool → PyVal × F) (s : Obs)
    (hagree : ∀ p st r S b, (v.function p st r S b).1 = (g p st r S b).1) :
    (v.callFull s).2 = v ∧
    (v.callFull s).1 = (({ v with function := g } : V P F Obs).callFull s).1 := by
  obtain ⟨op, vt, p, fs, r, f⟩ := v
  refine ⟨rfl, ?_⟩
  simp only [V.callFull]
  rw [hagree p fs r (op s) false]

/-- Claim C10 witness: the concrete wrapper `v2` against a variant
whose function advances the state differently but agrees on outputs. -/
theorem call_frame_witness :
    (v2.callFull 5).2 = v2 ∧
    (v2.callFull 5).1 = (({ v2 with function := g2 } : V Unit Nat Nat).callFull 5).1 :=
  call_frame v2 g2 5 (fun _ _ _ _ _ => rfl)

end Coax
